import Mathlib

/-!
Shallow embedding of `src/heat/core/operations.py` (the distributed binary/local/reduce
operation dispatchers) together with the collaborator surfaces it uses
(`stride_tricks.broadcast_shape`, `stride_tricks.sanitize_axis`, `types.promote_types`,
the communicator and the `DNDarray` handle).  The collaborator modules are not part of
the provided sources, so their definitions are modelled from the specification; the
dispatchers themselves are translated line by line from `operations.py`.

Buffers are modelled by their shape and element type: `operations.py` never inspects
buffer values — it only reads shapes (`lshape`, `shape`) and dtypes and hands the raw
buffers to externally supplied callables (`operation`, `partial_op`) and to the
communicator.  Those callables are kept abstract (function parameters), and every
invocation of one of them, every emitted warning and every collective call is recorded
as an observable event.
-/

/-- Modelled from the spec: the fixed element-type set (signed/unsigned integers,
floats, boolean) with a total promotion order (`types.py` is not among the sources). -/
inductive Dtype where
  | bool
  | int8
  | uint8
  | int16
  | int32
  | int64
  | float32
  | float64
deriving DecidableEq, Repr

/-- Modelled from the spec: position of a type in the promotion total order
(bool below the integer types ordered by width/signedness, below the float types). -/
def Dtype.rank : Dtype → Nat
  | .bool => 0
  | .int8 => 1
  | .uint8 => 2
  | .int16 => 3
  | .int32 => 4
  | .int64 => 5
  | .float32 => 6
  | .float64 => 7

/-- Modelled from the spec: `types.promote_types` returns the join of the two inputs
in the promotion total order. -/
def promote_types (t1 t2 : Dtype) : Dtype :=
  if t1.rank ≤ t2.rank then t2 else t1

/-- Modelled from the spec: `types.canonical_heat_type` maps a native buffer dtype back
to the heat element type; on the fixed element-type set this is the identity. -/
def canonical_heat_type (t : Dtype) : Dtype := t

/-- Error taxonomy of the spec (section 7).  `other` stands for a raw Python runtime
fault that is not part of the taxonomy (e.g. a name error on an empty reduction tuple). -/
inductive HeatError where
  | typeError
  | shapeError
  | axisError
  | valueError
  | notImplementedError
  | other
deriving DecidableEq, Repr

/-- Modelled from the spec: the communicator collaborator exposes rank and size. -/
structure Comm where
  rank : Nat
  size : Nat
deriving DecidableEq, Repr

/-- Modelled from the spec: `is_distributed` holds when the communicator reports more
than one participant. -/
def Comm.is_distributed (c : Comm) : Bool := 1 < c.size

/-- A local torch buffer, modelled by its shape and element type (the dispatchers never
read buffer values; values flow only through the abstract operation callables). -/
structure TorchTensor where
  shape : List Nat
  dtype : Dtype
deriving DecidableEq, Repr

/-- `tensor.type(dtype)`: cast of a buffer to another element type. -/
def TorchTensor.type (t : TorchTensor) (dt : Dtype) : TorchTensor := ⟨t.shape, dt⟩

/-- `tensor.reshape(-1)`: flatten to one dimension holding all elements. -/
def TorchTensor.reshapeFlat (t : TorchTensor) : TorchTensor := ⟨[t.shape.prod], t.dtype⟩

/-- The distributed array handle collaborator: local buffer (`_DNDarray__array`),
global shape, element type, split axis, device and communicator. -/
structure DNDarray where
  array : TorchTensor
  gshape : List Nat
  dtype : Dtype
  split : Option Nat
  device : Option Nat
  comm : Comm
deriving DecidableEq, Repr

/-- `x.lshape`: the shape of the local buffer. -/
def DNDarray.lshape (a : DNDarray) : List Nat := a.array.shape

/-- `x.astype(dt)`: the handle with its buffer and recorded type cast to `dt`. -/
def DNDarray.astype (a : DNDarray) (dt : Dtype) : DNDarray :=
  { a with array := a.array.type dt, dtype := dt }

/-- Left-pad a shape with 1s up to length `n`. -/
def padLeft (s : List Nat) (n : Nat) : List Nat :=
  List.replicate (n - s.length) 1 ++ s

/-- One aligned dimension of a NumPy-style broadcast: extents must be equal or one of
them must be 1; the output extent is the other one (i.e. the max). -/
def bcastDim (a b : Nat) : Option Nat :=
  if a = b then some a
  else if a = 1 then some b
  else if b = 1 then some a
  else none

/-- Modelled from the spec: `stride_tricks.broadcast_shape` right-aligns the two
shapes, pads the shorter with leading 1s and combines aligned extents, failing with a
`ShapeError` when a pair is neither equal nor contains a 1. -/
def broadcast_shape (s1 s2 : List Nat) : Except HeatError (List Nat) :=
  match ((padLeft s1 (max s1.length s2.length)).zip
      (padLeft s2 (max s1.length s2.length))).mapM (fun ab => bcastDim ab.1 ab.2) with
  | some s => .ok s
  | none => .error .shapeError

/-- The `axis` keyword argument of a reduction: absent, a single integer, or a tuple. -/
inductive AxisArg where
  | none
  | int (i : Int)
  | tuple (is' : List Int)
deriving DecidableEq, Repr

/-- Normalize one axis index modulo the rank, failing with an `AxisError` when it lies
outside `[-rank, rank)`. -/
def normAxis (ndim : Nat) (i : Int) : Except HeatError Nat :=
  if i < -(ndim : Int) ∨ (ndim : Int) ≤ i then .error .axisError
  else if i < 0 then .ok (i + ndim).toNat
  else .ok i.toNat

/-- Modelled from the spec: `stride_tricks.sanitize_axis` accepts `None`, an integer or
a tuple, normalizes negative indices modulo the rank, and fails with an `AxisError` on
an out-of-range or duplicated value.  The result is returned uniformly as an optional
list of normalized axes (`__reduce_op` itself wraps a single integer into a
one-element tuple before using it). -/
def sanitize_axis (shape : List Nat) (ax : AxisArg) : Except HeatError (Option (List Nat)) :=
  match ax with
  | .none => .ok none
  | .int i =>
    match normAxis shape.length i with
    | .ok n => .ok (some [n])
    | .error e => .error e
  | .tuple is' =>
    match is'.mapM (normAxis shape.length) with
    | .ok ns => if ns.Nodup then .ok (some ns) else .error .axisError
    | .error e => .error e

/-- A Python value handed to `__binary_op` as an operand: a recognized numeric scalar
(with its inferred element type), a scalar in the `np.isscalar` sense that is not
numeric (so `factories.array` rejects it), an array handle, or anything else. -/
inductive Operand where
  | scalar (v : Int) (dt : Dtype)
  | strScalar
  | arr (a : DNDarray)
  | other
deriving DecidableEq, Repr

/-- Observable effects of one `__binary_op` call: the emitted broadcast warning, a
`Bcast` collective on a communicator, and an invocation of the elementwise `operation`
on two casted local buffers. -/
inductive BinEvent where
  | warn
  | bcast
  | opCall (a b : TorchTensor)
deriving DecidableEq, Repr

deriving instance DecidableEq for Except

/-- Result of one `__binary_op` call: the returned handle or the raised error, plus the
ordered list of observable events. -/
structure BinResult where
  res : Except HeatError DNDarray
  events : List BinEvent
deriving DecidableEq, Repr

/-- Modelled from the spec: `factories.array([scalar])` wraps a numeric scalar into a
single-element unsplit handle on the default (world) communicator. -/
def scalarToArray (_v : Int) (dt : Dtype) (world : Comm) : DNDarray :=
  ⟨⟨[1], dt⟩, [1], dt, none, none, world⟩

/-- Lines 88-93 and 95-100 of `operations.py`: when an operand is split, has global
extent 1 along its split axis and its communicator is distributed, a warning is emitted,
ranks above 0 reallocate the local buffer to the global shape, and `Bcast` fills every
rank with the root's buffer (so after the collective the local buffer has the global
shape on every rank except possibly the root, whose buffer is left as it was). -/
def bcastStep (t : DNDarray) : DNDarray × List BinEvent :=
  match t.split with
  | none => (t, [])
  | some s =>
    if t.gshape.getD s 0 = 1 ∧ t.comm.is_distributed = true then
      ({ t with array :=
          if 0 < t.comm.rank then TorchTensor.mk t.gshape t.dtype else t.array },
       [.warn, .bcast])
    else (t, [])

/-- Lines 111-123 of `operations.py`: promote the two (already reconciled) dtypes, then
either short-circuit on an empty shard of the first operand or invoke `operation` on the
two casted buffers.  The source's second guard reads `elif t1.split is not None`,
repeating the first condition, so the branch that would test the second operand's shard
is unreachable; it is transcribed as written. -/
def binTail (op : TorchTensor → TorchTensor → TorchTensor) (t1 t2 : DNDarray) :
    TorchTensor × List BinEvent :=
  let promoted := promote_types t1.dtype t2.dtype
  match t1.split with
  | some s =>
    if t1.lshape.getD s 0 = 0 then (t1.array.type promoted, [])
    else (op (t1.array.type promoted) (t2.array.type promoted),
          [.opCall (t1.array.type promoted) (t2.array.type promoted)])
  | none =>
    if t1.split.isSome then
      if t2.lshape.getD (t2.split.getD 0) 0 = 0 then (t2.array.type promoted, [])
      else (op (t1.array.type promoted) (t2.array.type promoted),
            [.opCall (t1.array.type promoted) (t2.array.type promoted)])
    else (op (t1.array.type promoted) (t2.array.type promoted),
          [.opCall (t1.array.type promoted) (t2.array.type promoted)])

/-- Line 125 of `operations.py`: wrap the computed buffer into a fresh handle whose
element type is `canonical_heat_type(t1.dtype)`. -/
def mkBinRes (op : TorchTensor → TorchTensor → TorchTensor) (t1 t2 : DNDarray)
    (oshape : List Nat) (osplit : Option Nat) (odev : Option Nat) (ocomm : Comm) :
    BinResult :=
  let rt := binTail op t1 t2
  ⟨.ok (DNDarray.mk rt.1 oshape (canonical_heat_type t1.dtype) osplit odev ocomm), rt.2⟩

/-- `__binary_op(operation, t1, t2)` of `operations.py`, with the module-level
`MPI_WORLD` passed explicitly as `world`.  Scalars are wrapped via `factories.array`;
two array operands must have compatible splits (`t2.split is None or t2.split ==
t1.split`, line 77) else `NotImplementedError`; the dtype of the scalar (or second)
operand is reconciled by `astype` towards the other operand; the broadcast-with-warning
step runs only in the array-array branch; the final buffer and handle are built by
`binTail`/`mkBinRes`. -/
def binary_op (op : TorchTensor → TorchTensor → TorchTensor) (t1 t2 : Operand)
    (world : Comm) : BinResult :=
  match t1 with
  | .scalar v dt =>
    let a1 := scalarToArray v dt world
    match t2 with
    | .scalar w dw =>
      let a2 := scalarToArray w dw world
      let a1' := if a1.dtype ≠ a2.dtype then a1.astype a2.dtype else a1
      mkBinRes op a1' a2 [1] none none world
    | .arr b =>
      let a1' := if a1.dtype ≠ b.dtype then a1.astype b.dtype else a1
      mkBinRes op a1' b b.gshape b.split b.device b.comm
    | .strScalar => ⟨.error .typeError, []⟩
    | .other => ⟨.error .typeError, []⟩
  | .strScalar => ⟨.error .typeError, []⟩
  | .arr a =>
    match t2 with
    | .scalar w dw =>
      let b := scalarToArray w dw world
      let b' := if b.dtype ≠ a.dtype then b.astype a.dtype else b
      mkBinRes op a b' a.gshape a.split a.device a.comm
    | .strScalar => ⟨.error .typeError, []⟩
    | .arr b =>
      if b.split = none ∨ b.split = a.split then
        match broadcast_shape a.gshape b.gshape with
        | .error e => ⟨.error e, []⟩
        | .ok oshape =>
          let s1 := bcastStep a
          let s2 := bcastStep b
          let b2 := if s2.1.dtype ≠ s1.1.dtype then s2.1.astype s1.1.dtype else s2.1
          let rt := binTail op s1.1 b2
          ⟨.ok (DNDarray.mk rt.1 oshape (canonical_heat_type s1.1.dtype)
                 a.split a.device a.comm),
           s1.2 ++ s2.2 ++ rt.2⟩
      else ⟨.error .notImplementedError, []⟩
    | .other => ⟨.error .typeError, []⟩
  | .other => ⟨.error .notImplementedError, []⟩

/-- `__local_op(operation, x, out)` of `operations.py`.  The single Python callable
`operation` is used in two call shapes, kept abstract as two parameters: `op buf` for
`operation(buf)` (fresh-result path) and `opOut buf outbuf` for
`operation(buf, out=outbuf)`, whose value is the buffer left in `out` after the
in-place write.  With `out=None` a fresh handle with the input's global shape, split,
device and communicator and the promoted type is returned; otherwise the broadcast
multiples of the input's local shape against `out`'s local shape are computed, the
casted input is repeated when needed, and the result is written into `out`'s buffer. -/
def local_op (op : TorchTensor → TorchTensor)
    (opOut : TorchTensor → TorchTensor → TorchTensor)
    (x : DNDarray) (out : Option DNDarray) : Except HeatError DNDarray :=
  let promoted := promote_types x.dtype .float32
  match out with
  | none =>
    .ok (DNDarray.mk (op (x.array.type promoted)) x.gshape promoted x.split x.device x.comm)
  | some o =>
    match broadcast_shape x.lshape o.lshape with
    | .error e => .error e
    | .ok bshape =>
      let padded := padLeft x.lshape bshape.length
      let multiples := (bshape.zip padded).map (fun ab => ab.1 / ab.2)
      let needsRep := multiples.any (fun m => 1 < m)
      let casted := x.array.type promoted
      let input := if needsRep then
          TorchTensor.mk ((multiples.zip padded).map (fun mp => mp.1 * mp.2)) casted.dtype
        else casted
      .ok { o with array := opOut input o.array }

/-- The MPI reduction operators handed to `Allreduce`; `__reduce_op` singles out the
four boolean ones. -/
inductive MPIOp where
  | sum
  | prod
  | max
  | min
  | land
  | lor
  | band
  | bor
deriving DecidableEq, Repr

/-- Line 226 of `operations.py`: `[MPI.LAND, MPI.LOR, MPI.BAND, MPI.BOR]`. -/
def boolean_ops : List MPIOp := [.land, .lor, .band, .bor]

/-- Lines 199-211 of `operations.py`: the local partial reduction.  With `axis=None`
the whole buffer is reduced and flattened (`partial_op(x).reshape(-1)`); with a tuple
of axes `partial_op(partial, dim=dim, keepdim=True)` is folded over the axes. -/
def reducedBuf (pfull : TorchTensor → TorchTensor) (pdim : TorchTensor → Nat → TorchTensor)
    (x : DNDarray) (nax : Option (List Nat)) : TorchTensor :=
  match nax with
  | none => (pfull x.array).reshapeFlat
  | some dims => dims.foldl pdim x.array

/-- Line 210 of `operations.py`: `shape_keepdim` is reassigned from the ORIGINAL global
shape on every loop iteration, so only the last reduced axis ends up with extent 1. -/
def keepLastShape (gshape : List Nat) (dims : List Nat) : List Nat :=
  dims.foldl (fun _ d => gshape.take d ++ [1] ++ gshape.drop (d + 1)) []

/-- Line 211 of `operations.py`: the global shape with every reduced axis removed. -/
def loseShape (gshape : List Nat) (dims : List Nat) : List Nat :=
  ((List.range gshape.length).filter (fun d => !(dims.contains d))).map
    (fun d => gshape.getD d 0)

/-- Lines 199-213 of `operations.py`: the computed output shape.  `axis=None` gives
`(1,)`; otherwise the keep-dim or drop-dim shape is selected by `keepdim`.  An empty
reduction tuple with `keepdim` set evaluates the never-assigned name `shape_keepdim`
(a raw Python NameError, represented by `HeatError.other`). -/
def outputShape (gshape : List Nat) (nax : Option (List Nat)) (keepdim : Bool) :
    Except HeatError (List Nat) :=
  match nax with
  | none => .ok [1]
  | some [] => if keepdim then .error .other else .ok (loseShape gshape [])
  | some dims => .ok (if keepdim then keepLastShape gshape dims else loseShape gshape dims)

/-- Whether the (already normalized) reduction axes cover the split axis `s`:
`axis is None or (x.split in axis)` on line 220 of `operations.py`. -/
def splitHitB (nax : Option (List Nat)) (s : Nat) : Bool :=
  match nax with
  | none => true
  | some dims => dims.contains s

/-- Lines 220-221 of `operations.py`: the result's split axis becomes `None` when the
input is split and the reduction covers the split axis, else it keeps the input's. -/
def reducedSplit (x : DNDarray) (nax : Option (List Nat)) : Option Nat :=
  match x.split with
  | some s => if splitHitB nax s then none else some s
  | none => none

/-- Lines 220-223 of `operations.py`: `Allreduce(MPI.IN_PLACE, partial, reduction_op)`
is invoked (once) exactly when the input is split, the reduction covers the split axis
and the communicator is distributed; the list records the operator of each call. -/
def reduceEvents (x : DNDarray) (nax : Option (List Nat)) (rop : MPIOp) : List MPIOp :=
  match x.split with
  | some s => if splitHitB nax s && x.comm.is_distributed then [rop] else []
  | none => []

/-- Lines 226-227 of `operations.py`: boolean reduction operators force a boolean
result type, any other operator inherits the partial buffer's type. -/
def reducedType (rop : MPIOp) (t : TorchTensor) : Dtype :=
  if rop ∈ boolean_ops then .bool else t.dtype

/-- Lines 229-234 of `operations.py`: the five fields of `out` that are overwritten in
place (its global shape is untouched — it already matched the computed shape). -/
def updatedOut (pfull : TorchTensor → TorchTensor) (pdim : TorchTensor → Nat → TorchTensor)
    (rop : MPIOp) (x : DNDarray) (nax : Option (List Nat)) (o : DNDarray) : DNDarray :=
  { o with
    array := reducedBuf pfull pdim x nax,
    dtype := canonical_heat_type (reducedType rop (reducedBuf pfull pdim x nax)),
    split := reducedSplit x nax,
    device := x.device,
    comm := x.comm }

/-- Result of one `__reduce_op` call: the returned handle or raised error, the state of
the `out` argument after the call, and the `Allreduce` invocations (with operators). -/
structure ReduceResult where
  res : Except HeatError DNDarray
  outState : Option DNDarray
  events : List MPIOp
deriving DecidableEq, Repr

/-- `__reduce_op(x, partial_op, reduction_op, axis, keepdim, out)` of `operations.py`.
The Python callable `partial_op` is used in two call shapes, kept abstract as `pfull`
(for `partial_op(buf)`) and `pdim` (for `partial_op(buf, dim=d, keepdim=True)`).
Order of effects follows the source: sanitize the axis, compute the partial reduction
and output shape, check `out`'s shape (raising `ValueError` before any collective and
before any mutation of `out`), then possibly `Allreduce` in place and finally either
overwrite `out`'s fields or build a fresh handle. -/
def reduce_op (pfull : TorchTensor → TorchTensor) (pdim : TorchTensor → Nat → TorchTensor)
    (rop : MPIOp) (x : DNDarray) (axis : AxisArg) (keepdim : Bool)
    (out : Option DNDarray) : ReduceResult :=
  match sanitize_axis x.gshape axis with
  | .error e => ⟨.error e, out, []⟩
  | .ok nax =>
    match outputShape x.gshape nax keepdim with
    | .error e => ⟨.error e, out, []⟩
    | .ok oshape =>
      match out with
      | some o =>
        if o.gshape ≠ oshape then ⟨.error .valueError, some o, []⟩
        else
          let o' := updatedOut pfull pdim rop x nax o
          ⟨.ok o', some o', reduceEvents x nax rop⟩
      | none =>
        ⟨.ok (DNDarray.mk (reducedBuf pfull pdim x nax) oshape
              (canonical_heat_type (reducedType rop (reducedBuf pfull pdim x nax)))
              (reducedSplit x nax) x.device x.comm),
         none, reduceEvents x nax rop⟩

/-- The element type of the handle a call returned, when it returned one. -/
def okDtype (r : Except HeatError DNDarray) : Option Dtype := r.toOption.map DNDarray.dtype

/-- The split axis of the handle a call returned, when it returned one. -/
def okSplit (r : Except HeatError DNDarray) : Option (Option Nat) :=
  r.toOption.map DNDarray.split

/-- The recorded global shape of the handle a call returned, when it returned one. -/
def okGshape (r : Except HeatError DNDarray) : Option (List Nat) :=
  r.toOption.map DNDarray.gshape

/-- The local-buffer shape of the handle a call returned, when it returned one. -/
def okLshape (r : Except HeatError DNDarray) : Option (List Nat) :=
  r.toOption.map DNDarray.lshape

/-- A concrete elementwise binary operation (first projection) for closed evaluations. -/
def opFst : TorchTensor → TorchTensor → TorchTensor := fun a _ => a

/-- A concrete unary elementwise operation (identity) for closed evaluations. -/
def idT : TorchTensor → TorchTensor := fun t => t

/-- A concrete in-place elementwise write: the values come from the computed operand
(its shape), the storage and its dtype remain the output buffer's. -/
def writeOut : TorchTensor → TorchTensor → TorchTensor := fun t o => ⟨t.shape, o.dtype⟩

/-- A concrete torch-style full reduction (e.g. `torch.sum(t)`): 0-dimensional result. -/
def sumFull : TorchTensor → TorchTensor := fun t => ⟨[], t.dtype⟩

/-- A concrete torch-style per-axis reduction with `keepdim=True` (e.g.
`torch.sum(t, dim=d, keepdim=True)`): the reduced axis keeps extent 1. -/
def sumKeep : TorchTensor → Nat → TorchTensor :=
  fun t d => ⟨t.shape.take d ++ [1] ++ t.shape.drop (d + 1), t.dtype⟩

/-- First operand of the C1 counterexample: an unsplit array of global shape (2,). -/
def c1a : DNDarray := ⟨⟨[2], .float32⟩, [2], .float32, none, none, ⟨0, 2⟩⟩

/-- Second operand of the C1 counterexample: the same global shape split along axis 0. -/
def c1b : DNDarray := ⟨⟨[1], .float32⟩, [2], .float32, some 0, none, ⟨0, 2⟩⟩

/-- C1 counterexample: the first operand is unsplit (so "at least one operand is
unsplit" holds and the operands are not split along two different axes), yet
`binary_op` raises the hard incompatible-layout failure, because the source only
accepts `t2.split is None or t2.split == t1.split` and here the second operand is
split while the first is not. -/
theorem c1_counterexample :
    c1a.split = none ∧ c1b.split = some 0 ∧
    (binary_op opFst (.arr c1a) (.arr c1b) ⟨0, 2⟩).res = .error .notImplementedError := by
  decide

/-- `broadcast_shape` can only fail with a `ShapeError`. -/
theorem broadcast_shape_error_eq (s1 s2 : List Nat) (e : HeatError)
    (h : broadcast_shape s1 s2 = .error e) : e = .shapeError := by
  unfold broadcast_shape at h
  cases hm : ((padLeft s1 (max s1.length s2.length)).zip
      (padLeft s2 (max s1.length s2.length))).mapM (fun ab => bcastDim ab.1 ab.2) <;>
    rw [hm] at h <;> simp_all

/-- C1 (amended): for two array-handle operands, `binary_op` raises the hard
incompatible-layout failure exactly when the second operand is split along an axis
different from the first operand's split axis — including when the first operand is
unsplit; only when the second operand is unsplit or the two split axes match does the
call proceed past the layout check. -/
theorem c1_amended (op : TorchTensor → TorchTensor → TorchTensor) (a b : DNDarray)
    (world : Comm) :
    (binary_op op (.arr a) (.arr b) world).res = .error .notImplementedError ↔
      (b.split ≠ none ∧ b.split ≠ a.split) := by
  by_cases hcomp : b.split = none ∨ b.split = a.split
  · simp only [binary_op, if_pos hcomp]
    cases hbs : broadcast_shape a.gshape b.gshape with
    | error e =>
      have he := broadcast_shape_error_eq _ _ _ hbs
      subst he
      simp only [hbs]
      constructor
      · intro h
        exact absurd (Except.error.injEq _ _ ▸ h) (by simp)
      · intro h
        exact absurd hcomp (by tauto)
    | ok oshape =>
      simp only [hbs]
      constructor
      · intro h
        exact absurd h (by simp)
      · intro h
        exact absurd hcomp (by tauto)
  · simp only [binary_op, if_neg hcomp]
    push_neg at hcomp
    simp [hcomp.1, hcomp.2]

/-- First operand of the C2 counterexample: a float32 array. -/
def c2a : DNDarray := ⟨⟨[2], .float32⟩, [2], .float32, none, none, ⟨0, 1⟩⟩

/-- Second operand of the C2 counterexample: a float64 array of the same shape. -/
def c2b : DNDarray := ⟨⟨[2], .float64⟩, [2], .float64, none, none, ⟨0, 1⟩⟩

/-- C2 counterexample: the promoted type of float32 and float64 is float64, yet
`binary_op` on a float32 first operand and a float64 second operand returns a float32
handle — the source casts the second operand DOWN to the first operand's type
(`t2 = t2.astype(t1.dtype)`, line 106) and stamps the result with `t1.dtype`
(line 125), not with the promotion join. -/
theorem c2_counterexample :
    promote_types c2a.dtype c2b.dtype = .float64 ∧
    okDtype (binary_op opFst (.arr c2a) (.arr c2b) ⟨0, 1⟩).res = some .float32 ∧
    Dtype.float32 ≠ .float64 := by
  decide

/-- The broadcast step never changes the handle's element type. -/
theorem bcastStep_dtype (t : DNDarray) : (bcastStep t).1.dtype = t.dtype := by
  unfold bcastStep
  cases hsp : t.split with
  | none => rfl
  | some s =>
    dsimp only
    split
    · rfl
    · rfl

/-- Every buffer handed to the elementwise operation by the tail of `__binary_op`
carries the promoted type of the two (already reconciled) operands. -/
theorem binTail_opCall_dtype (op : TorchTensor → TorchTensor → TorchTensor)
    (t1 t2 : DNDarray) (p q : TorchTensor)
    (h : BinEvent.opCall p q ∈ (binTail op t1 t2).2) :
    p.dtype = promote_types t1.dtype t2.dtype ∧
    q.dtype = promote_types t1.dtype t2.dtype := by
  unfold binTail at h
  cases hsp : t1.split with
  | some s =>
    simp only [hsp] at h
    split at h
    · simp at h
    · simp only [List.mem_singleton, BinEvent.opCall.injEq] at h
      obtain ⟨rfl, rfl⟩ := h
      exact ⟨rfl, rfl⟩
  | none =>
    simp only [hsp, Option.isSome_none, Bool.false_eq_true, if_false,
      List.mem_singleton, BinEvent.opCall.injEq] at h
    obtain ⟨rfl, rfl⟩ := h
    exact ⟨rfl, rfl⟩

/-- The broadcast step emits no operation invocation. -/
theorem bcastStep_no_opCall (t : DNDarray) (p q : TorchTensor) :
    BinEvent.opCall p q ∉ (bcastStep t).2 := by
  unfold bcastStep
  cases hsp : t.split with
  | none => simp
  | some s =>
    dsimp only
    split
    · simp
    · simp

/-- Promotion of a type with itself is that type. -/
theorem promote_types_self (d : Dtype) : promote_types d d = d := by
  unfold promote_types
  simp

/-- The dtype-reconciliation step of `__binary_op` (lines 105-106): after the
conditional `astype`, the adjusted operand carries the target type. -/
theorem astype_reconcile_dtype (t : DNDarray) (d : Dtype) :
    (if t.dtype ≠ d then t.astype d else t).dtype = d := by
  by_cases hne : t.dtype ≠ d
  · simp [hne, DNDarray.astype]
  · push_neg at hne
    simp [hne]

/-- C2 (amended): for two array-handle operands whose call succeeds, the element types
are reconciled by casting the SECOND operand to the FIRST operand's element type,
regardless of which type is lower in the promotion order: every invocation of the
elementwise operation receives two buffers of the first operand's type, and the
returned handle's element type is the first operand's element type, not the promotion
join of the two input types. -/
theorem c2_amended (op : TorchTensor → TorchTensor → TorchTensor) (a b : DNDarray)
    (world : Comm) (r : DNDarray)
    (h : (binary_op op (.arr a) (.arr b) world).res = .ok r) :
    r.dtype = a.dtype ∧
    ∀ p q, BinEvent.opCall p q ∈ (binary_op op (.arr a) (.arr b) world).events →
      p.dtype = a.dtype ∧ q.dtype = a.dtype := by
  by_cases hcomp : b.split = none ∨ b.split = a.split
  · simp only [binary_op, if_pos hcomp] at h ⊢
    cases hbs : broadcast_shape a.gshape b.gshape with
    | error e =>
      rw [hbs] at h
      simp at h
    | ok oshape =>
      rw [hbs] at h
      dsimp only at h
      dsimp only
      simp only [Except.ok.injEq] at h
      subst h
      refine ⟨bcastStep_dtype a, ?_⟩
      intro p q hpq
      rcases List.mem_append.mp hpq with h12 | h3
      · rcases List.mem_append.mp h12 with h1 | h2
        · exact absurd h1 (bcastStep_no_opCall a p q)
        · exact absurd h2 (bcastStep_no_opCall b p q)
      · have hd := binTail_opCall_dtype _ _ _ _ _ h3
        have hb2 : (if (bcastStep b).1.dtype ≠ (bcastStep a).1.dtype then
            (bcastStep b).1.astype (bcastStep a).1.dtype else (bcastStep b).1).dtype =
            (bcastStep a).1.dtype := astype_reconcile_dtype _ _
        rw [hb2, promote_types_self, bcastStep_dtype a] at hd
        exact hd
  · simp only [binary_op, if_neg hcomp] at h
    exact absurd h (by simp)

/-- C2 amended-theorem witness: at the concrete float32/float64 operand pair the
amended statement holds with the hypothesis discharged by evaluation. -/
theorem c2_amended_witness :
    (DNDarray.mk ⟨[2], .float32⟩ [2] .float32 none none ⟨0, 1⟩).dtype = c2a.dtype :=
  (c2_amended opFst c2a c2b ⟨0, 1⟩
    (DNDarray.mk ⟨[2], .float32⟩ [2] .float32 none none ⟨0, 1⟩) (by decide)).1

/-- The broadcast-requirement condition of lines 89 and 96 of `operations.py`: the
operand is split, its global extent along the split axis equals 1, and its
communicator is distributed. -/
def bcCondB (t : DNDarray) : Bool :=
  match t.split with
  | some s => (t.gshape.getD s 0 == 1) && t.comm.is_distributed
  | none => false

/-- The events of the broadcast step are a warning followed by the collective, exactly
under the broadcast-requirement condition. -/
theorem bcastStep_events_eq (t : DNDarray) :
    (bcastStep t).2 = if bcCondB t = true then [BinEvent.warn, BinEvent.bcast] else [] := by
  unfold bcastStep bcCondB
  cases hsp : t.split with
  | none => simp
  | some s =>
    dsimp only
    by_cases hc : t.gshape.getD s 0 = 1 ∧ t.comm.is_distributed = true
    · have hb : ((t.gshape.getD s 0 == 1) && t.comm.is_distributed) = true := by
        simp only [Bool.and_eq_true, beq_iff_eq]
        exact hc
      rw [if_pos hc, if_pos hb]
    · have hb : ¬ ((t.gshape.getD s 0 == 1) && t.comm.is_distributed) = true := by
        simp only [Bool.and_eq_true, beq_iff_eq]
        exact hc
      rw [if_neg hc, if_neg hb]

/-- The collective appears among the broadcast step's events exactly under the
broadcast-requirement condition. -/
theorem bcast_mem_bcastStep (t : DNDarray) :
    BinEvent.bcast ∈ (bcastStep t).2 ↔ bcCondB t = true := by
  rw [bcastStep_events_eq]
  by_cases hc : bcCondB t = true <;> simp [hc]

/-- The warning appears among the broadcast step's events exactly under the
broadcast-requirement condition. -/
theorem warn_mem_bcastStep (t : DNDarray) :
    BinEvent.warn ∈ (bcastStep t).2 ↔ bcCondB t = true := by
  rw [bcastStep_events_eq]
  by_cases hc : bcCondB t = true <;> simp [hc]

/-- The tail of `__binary_op` performs no collective. -/
theorem binTail_no_bcast (op : TorchTensor → TorchTensor → TorchTensor)
    (t1 t2 : DNDarray) : BinEvent.bcast ∉ (binTail op t1 t2).2 := by
  unfold binTail
  cases hsp : t1.split with
  | some s =>
    dsimp only
    split
    · simp
    · simp
  | none =>
    simp

/-- The tail of `__binary_op` emits no warning. -/
theorem binTail_no_warn (op : TorchTensor → TorchTensor → TorchTensor)
    (t1 t2 : DNDarray) : BinEvent.warn ∉ (binTail op t1 t2).2 := by
  unfold binTail
  cases hsp : t1.split with
  | some s =>
    dsimp only
    split
    · simp
    · simp
  | none =>
    simp

/-- Split operand of the C3 counterexample: global extent 1 along its split axis 0,
with a distributed communicator of two participants. -/
def c3b : DNDarray := ⟨⟨[1], .float32⟩, [1], .float32, some 0, none, ⟨0, 2⟩⟩

/-- C3 counterexample: the second operand is split with global extent 1 along its
split axis and its communicator reports more than one participant — the claim's
condition for the broadcast primitive — yet when the first operand is a scalar,
`binary_op` performs no broadcast at all: the broadcast block of the source lives only
in the array-array branch. -/
theorem c3_counterexample :
    (c3b.split = some 0 ∧ c3b.gshape.getD 0 0 = 1 ∧ c3b.comm.is_distributed = true) ∧
    BinEvent.bcast ∉ (binary_op opFst (.scalar 3 .float32) (.arr c3b) ⟨0, 2⟩).events := by
  decide

/-- C3 (amended): `binary_op` invokes the communicator's broadcast primitive if and
only if both operands are array handles, their split layouts are compatible, their
global shapes are broadcast-compatible, and some operand is split with global extent 1
along its split axis while its communicator reports more than one participant; and
whenever the broadcast primitive is invoked, an observable warning is also emitted.
In every other situation — in particular for scalar operands, or for two operands split
along the same axis with extents greater than 1 — no communication happens. -/
theorem c3_amended (op : TorchTensor → TorchTensor → TorchTensor) (o1 o2 : Operand)
    (world : Comm) :
    (BinEvent.bcast ∈ (binary_op op o1 o2 world).events ↔
      ∃ a b, o1 = .arr a ∧ o2 = .arr b ∧
        (b.split = none ∨ b.split = a.split) ∧
        (broadcast_shape a.gshape b.gshape).toOption.isSome = true ∧
        (bcCondB a = true ∨ bcCondB b = true)) ∧
    (BinEvent.bcast ∈ (binary_op op o1 o2 world).events →
      BinEvent.warn ∈ (binary_op op o1 o2 world).events) := by
  cases o1 with
  | scalar v dt =>
    cases o2 <;>
      simp [binary_op, mkBinRes, binTail_no_bcast, binTail_no_warn]
  | strScalar =>
    cases o2 <;>
      simp [binary_op, mkBinRes, binTail_no_bcast, binTail_no_warn]
  | other =>
    cases o2 <;>
      simp [binary_op, mkBinRes, binTail_no_bcast, binTail_no_warn]
  | arr a =>
    cases o2 with
    | scalar w dw =>
      simp [binary_op, mkBinRes, binTail_no_bcast, binTail_no_warn]
    | strScalar =>
      simp [binary_op, mkBinRes, binTail_no_bcast, binTail_no_warn]
    | other =>
      simp [binary_op, mkBinRes, binTail_no_bcast, binTail_no_warn]
    | arr b =>
      by_cases hcomp : b.split = none ∨ b.split = a.split
      · cases hbs : broadcast_shape a.gshape b.gshape with
        | error e =>
          simp only [binary_op, if_pos hcomp, hbs]
          constructor
          · simp [hbs, Except.toOption]
          · simp
        | ok oshape =>
          simp only [binary_op, if_pos hcomp, hbs]
          constructor
          · simp [List.mem_append, bcast_mem_bcastStep, binTail_no_bcast, hcomp, hbs,
              Except.toOption]
          · intro hmem
            simp only [List.mem_append, bcast_mem_bcastStep, binTail_no_bcast,
              or_false] at hmem
            simp only [List.mem_append, warn_mem_bcastStep, binTail_no_warn, or_false]
            exact hmem
      · simp only [binary_op, if_neg hcomp]
        constructor
        · simp [hcomp]
        · simp

/-- Concrete input of the C3 witness: a split operand with global extent 1 along its
split axis on a two-participant communicator. -/
def c3wa : DNDarray := ⟨⟨[1], .float32⟩, [1], .float32, some 0, none, ⟨0, 2⟩⟩

/-- C3 amended-theorem witness: at a concrete array-array input satisfying the
broadcast-requirement condition the collective does occur, and the accompanying
warning is emitted. -/
theorem c3_amended_witness :
    BinEvent.warn ∈ (binary_op opFst (.arr c3wa) (.arr c3wa) ⟨0, 2⟩).events :=
  (c3_amended opFst (.arr c3wa) (.arr c3wa) ⟨0, 2⟩).2
    ((c3_amended opFst (.arr c3wa) (.arr c3wa) ⟨0, 2⟩).1.mpr
      ⟨c3wa, c3wa, rfl, rfl, by decide, by decide, by decide⟩)

/-- Second operand of the C4 evaluation: split along axis 0 with an empty local shard
(global extent 4, local extent 0 on this rank). -/
def c4b : DNDarray := ⟨⟨[0], .float32⟩, [4], .float32, some 0, none, ⟨1, 2⟩⟩

/-- C4 code-bug evaluation: the second operand is split and its local shard has zero
length along the split axis, yet the elementwise operation IS invoked (here on the
scalar-promoted buffer of shape (1,) and the empty buffer of shape (0,)): the source's
second empty-shard guard reads `elif t1.split is not None`, repeating the first guard,
so the zero-length check on the second operand is unreachable. -/
theorem c4_bug_eval :
    c4b.split = some 0 ∧ c4b.lshape.getD 0 0 = 0 ∧
    BinEvent.opCall ⟨[1], .float32⟩ ⟨[0], .float32⟩ ∈
      (binary_op opFst (.scalar 1 .int64) (.arr c4b) ⟨1, 2⟩).events := by
  decide

/-- Input of the C6 evaluation: an unsplit array of global shape (2, 3, 4). -/
def c6x : DNDarray := ⟨⟨[2, 3, 4], .float32⟩, [2, 3, 4], .float32, none, none, ⟨0, 1⟩⟩

/-- C6 code-bug evaluation: reducing over the two distinct axes (0, 1) with `keepdim`
computes the recorded output shape (2, 1, 4) — only the LAST reduced axis is set to 1,
because line 210 recomputes `shape_keepdim` from the original global shape on every
loop iteration — whereas the claim (and the actual reduced buffer, which has shape
(1, 1, 4)) requires (1, 1, 4). -/
theorem c6_bug_eval :
    okGshape (reduce_op sumFull sumKeep .sum c6x (.tuple [0, 1]) true none).res
      = some [2, 1, 4] ∧
    okLshape (reduce_op sumFull sumKeep .sum c6x (.tuple [0, 1]) true none).res
      = some [1, 1, 4] ∧
    ([2, 1, 4] : List Nat) ≠ [1, 1, 4] := by
  decide

/-- Input of the C8 evaluation: an unsplit array of global shape (2, 3). -/
def c8x : DNDarray := ⟨⟨[2, 3], .float32⟩, [2, 3], .float32, none, none, ⟨0, 1⟩⟩

/-- C8 code-bug evaluation: the handle returned by `reduce_op` over axis 0 without
`keepdim` is unsplit and records global shape (3,), but its local buffer has shape
(1, 3): the partial buffer is always produced with `keepdim=True` and never reshaped
to the drop-dim output shape, so the unsplit-array invariant
"local shape equals global shape" is violated. -/
theorem c8_bug_eval :
    okSplit (reduce_op sumFull sumKeep .sum c8x (.int 0) false none).res = some none ∧
    okGshape (reduce_op sumFull sumKeep .sum c8x (.int 0) false none).res = some [3] ∧
    okLshape (reduce_op sumFull sumKeep .sum c8x (.int 0) false none).res = some [1, 3] ∧
    ([1, 3] : List Nat) ≠ [3] := by
  decide

/-- Input of the C9 counterexample: a float32 array. -/
def c9x : DNDarray := ⟨⟨[2], .float32⟩, [2], .float32, none, none, ⟨0, 1⟩⟩

/-- Output buffer of the C9 counterexample: a float64 handle of the same local shape. -/
def c9o : DNDarray := ⟨⟨[2], .float64⟩, [2], .float64, none, none, ⟨0, 1⟩⟩

/-- C9 counterexample: the promotion of the input's type (float32) with the minimal
floating-point type is float32, yet `local_op` with a float64 `out` buffer succeeds
and returns a handle whose element type is float64: the source never updates `out`'s
dtype field on the in-place path (lines 179-183 write into the buffer and return `out`
as is), so the claim's universal statement about every returned handle fails. -/
theorem c9_counterexample :
    promote_types c9x.dtype .float32 = .float32 ∧
    okDtype (local_op idT writeOut c9x (some c9o)) = some .float64 ∧
    Dtype.float64 ≠ .float32 := by
  decide

/-- C9 (amended): `local_op` with `out=None` returns a fresh handle whose element type
is the promotion of the input's element type with the minimal floating-point type,
carrying the input's global shape, split axis, device and communicator, and a buffer
equal to the operation applied to the input's local buffer cast to the promoted type;
with an `out` handle supplied, every successful call returns a handle keeping `out`'s
own element type. -/
theorem c9_amended :
    (∀ (op : TorchTensor → TorchTensor)
        (opOut : TorchTensor → TorchTensor → TorchTensor) (x : DNDarray),
      local_op op opOut x none =
        .ok (DNDarray.mk (op (x.array.type (promote_types x.dtype .float32)))
          x.gshape (promote_types x.dtype .float32) x.split x.device x.comm)) ∧
    (∀ (op : TorchTensor → TorchTensor)
        (opOut : TorchTensor → TorchTensor → TorchTensor) (x o r : DNDarray),
      local_op op opOut x (some o) = .ok r → r.dtype = o.dtype) := by
  constructor
  · intro op opOut x
    rfl
  · intro op opOut x o r h
    unfold local_op at h
    cases hbs : broadcast_shape x.lshape o.lshape with
    | error e =>
      simp only [hbs] at h
      exact absurd h (by simp)
    | ok bshape =>
      simp only [hbs, Except.ok.injEq] at h
      subst h
      rfl

/-- C9 amended-theorem witness: at the concrete float32 input and float64 output
buffer, the out-supplied clause holds with its success hypothesis discharged by
evaluation — the returned handle keeps the output buffer's float64 type. -/
theorem c9_amended_witness :
    (DNDarray.mk ⟨[2], .float64⟩ [2] .float64 none none ⟨0, 1⟩).dtype = c9o.dtype :=
  c9_amended.2 idT writeOut c9x c9o
    (DNDarray.mk ⟨[2], .float64⟩ [2] .float64 none none ⟨0, 1⟩) (by decide)

/-- C10 counterexample: a first operand that is neither a recognized numeric scalar
nor an array handle makes `binary_op` fail with `NotImplementedError` (line 109 of the
source: `raise NotImplementedError('Not implemented for non scalar')`), not with the
`TypeError` the claim requires. -/
theorem c10_counterexample :
    (binary_op opFst .other (.scalar 1 .int64) ⟨0, 1⟩).res = .error .notImplementedError ∧
    HeatError.notImplementedError ≠ .typeError := by
  decide

/-- C10 (amended): a second operand that is neither a recognized numeric scalar nor an
array handle fails with `TypeError` (when the first operand is a numeric scalar or an
array handle), and a non-numeric scalar first operand fails with `TypeError`; but a
first operand that is not scalar-like and not an array handle fails with
`NotImplementedError` instead of `TypeError`. -/
theorem c10_amended :
    (∀ op o2 world, (binary_op op Operand.other o2 world).res
        = .error .notImplementedError) ∧
    (∀ op o2 world, (binary_op op Operand.strScalar o2 world).res = .error .typeError) ∧
    (∀ op a world, (binary_op op (Operand.arr a) Operand.other world).res
        = .error .typeError) ∧
    (∀ op v dt world, (binary_op op (Operand.scalar v dt) Operand.other world).res
        = .error .typeError) ∧
    (∀ op a world, (binary_op op (Operand.arr a) Operand.strScalar world).res
        = .error .typeError) ∧
    (∀ op v dt world, (binary_op op (Operand.scalar v dt) Operand.strScalar world).res
        = .error .typeError) :=
  ⟨fun _ _ _ => rfl, fun _ _ _ => rfl, fun _ _ _ => rfl, fun _ _ _ _ => rfl,
   fun _ _ _ => rfl, fun _ _ _ _ => rfl⟩

/-- For a successful `__reduce_op` call, the returned handle's split axis and the
performed collectives are exactly those computed by `reducedSplit`/`reduceEvents`
(lines 219-223 of the source), on both the fresh-handle and the `out` path. -/
theorem reduce_op_ok_parts (pfull : TorchTensor → TorchTensor)
    (pdim : TorchTensor → Nat → TorchTensor) (rop : MPIOp) (x : DNDarray)
    (axis : AxisArg) (keepdim : Bool) (out : Option DNDarray)
    (nax : Option (List Nat)) (r : DNDarray)
    (hs : sanitize_axis x.gshape axis = .ok nax)
    (hr : (reduce_op pfull pdim rop x axis keepdim out).res = .ok r) :
    r.split = reducedSplit x nax ∧
    (reduce_op pfull pdim rop x axis keepdim out).events = reduceEvents x nax rop := by
  simp only [reduce_op, hs] at hr ⊢
  cases ho : outputShape x.gshape nax keepdim with
  | error e =>
    simp only [ho] at hr
    exact absurd hr (by simp)
  | ok oshape =>
    simp only [ho] at hr ⊢
    cases out with
    | some o =>
      by_cases hosh : o.gshape ≠ oshape
      · simp only [if_pos hosh] at hr
        exact absurd hr (by simp)
      · simp only [if_neg hosh] at hr ⊢
        simp only [Except.ok.injEq] at hr
        subst hr
        constructor <;> trivial
    | none =>
      simp only [Except.ok.injEq] at hr
      subst hr
      constructor <;> trivial

/-- `reducedSplit` for a split input, expressed through the hit condition. -/
theorem reducedSplit_eq (x : DNDarray) (nax : Option (List Nat)) (s : Nat)
    (hsplit : x.split = some s) :
    reducedSplit x nax = if splitHitB nax s then none else some s := by
  unfold reducedSplit
  rw [hsplit]

/-- `reduceEvents` for a split input, expressed through the hit condition. -/
theorem reduceEvents_eq (x : DNDarray) (nax : Option (List Nat)) (rop : MPIOp) (s : Nat)
    (hsplit : x.split = some s) :
    reduceEvents x nax rop =
      if splitHitB nax s && x.comm.is_distributed then [rop] else [] := by
  unfold reduceEvents
  rw [hsplit]

/-- C5 (confirmed): for every successful `reduce_op` call on a split input, when the
normalized reduction axis set covers the split axis (or the axis is `None`), the
returned handle is unsplit and the communicator's all-reduce primitive is invoked
(in place, with the combine reduction operator, exactly once) if and only if the
communicator reports more than one participant; when the axis set does not cover the
split axis, no all-reduce is invoked and the result keeps the input's split axis. -/
theorem c5_confirmed (pfull : TorchTensor → TorchTensor)
    (pdim : TorchTensor → Nat → TorchTensor) (rop : MPIOp) (x : DNDarray)
    (axis : AxisArg) (keepdim : Bool) (out : Option DNDarray)
    (nax : Option (List Nat)) (r : DNDarray) (s : Nat)
    (hs : sanitize_axis x.gshape axis = .ok nax)
    (hr : (reduce_op pfull pdim rop x axis keepdim out).res = .ok r)
    (hsplit : x.split = some s) :
    (splitHitB nax s = true →
      r.split = none ∧
      ((reduce_op pfull pdim rop x axis keepdim out).events = [rop] ↔
        x.comm.is_distributed = true)) ∧
    (splitHitB nax s = false →
      (reduce_op pfull pdim rop x axis keepdim out).events = [] ∧
      r.split = some s) := by
  obtain ⟨hrs, hev⟩ := reduce_op_ok_parts pfull pdim rop x axis keepdim out nax r hs hr
  rw [hrs, hev, reducedSplit_eq x nax s hsplit, reduceEvents_eq x nax rop s hsplit]
  constructor
  · intro hh
    by_cases hd : x.comm.is_distributed = true
    · simp [hh, hd]
    · simp [hh, hd]
  · intro hh
    simp [hh]

/-- Input of the C5 witness: an array of global shape (4, 5) split along axis 0, with
a local shard of two rows, on a two-participant communicator. -/
def c5x : DNDarray := ⟨⟨[2, 5], .float32⟩, [4, 5], .float32, some 0, none, ⟨0, 2⟩⟩

/-- The handle the C5 witness call returns: unsplit, with the keep-dim partial buffer. -/
def c5r : DNDarray := ⟨⟨[1, 5], .float32⟩, [5], .float32, none, none, ⟨0, 2⟩⟩

/-- C5 witness: reducing the concrete split input over its split axis with a
sum-combine returns an unsplit handle and performs exactly one all-reduce. -/
theorem c5_witness :
    c5r.split = none ∧
    ((reduce_op sumFull sumKeep .sum c5x (.int 0) false none).events = [.sum] ↔
      c5x.comm.is_distributed = true) :=
  (c5_confirmed sumFull sumKeep .sum c5x (.int 0) false none (some [0]) c5r 0
    (by decide) (by decide) (by decide)).1 (by decide)

/-- C7 (confirmed): for every `reduce_op` call with an `out` handle, a mismatch
between `out`'s shape and the computed output shape raises `ValueError`, leaves `out`
completely unmodified and performs no collective; an exact match overwrites exactly
`out`'s buffer, type, split, device and communicator fields in place (its global shape
is untouched) and returns `out` itself. -/
theorem c7_confirmed (pfull : TorchTensor → TorchTensor)
    (pdim : TorchTensor → Nat → TorchTensor) (rop : MPIOp) (x : DNDarray)
    (axis : AxisArg) (keepdim : Bool) (o : DNDarray)
    (nax : Option (List Nat)) (oshape : List Nat)
    (hs : sanitize_axis x.gshape axis = .ok nax)
    (ho : outputShape x.gshape nax keepdim = .ok oshape) :
    (o.gshape ≠ oshape →
      (reduce_op pfull pdim rop x axis keepdim (some o)).res = .error .valueError ∧
      (reduce_op pfull pdim rop x axis keepdim (some o)).outState = some o ∧
      (reduce_op pfull pdim rop x axis keepdim (some o)).events = []) ∧
    (o.gshape = oshape →
      (reduce_op pfull pdim rop x axis keepdim (some o)).res
        = .ok (updatedOut pfull pdim rop x nax o) ∧
      (reduce_op pfull pdim rop x axis keepdim (some o)).outState
        = some (updatedOut pfull pdim rop x nax o) ∧
      (updatedOut pfull pdim rop x nax o).gshape = o.gshape) := by
  simp only [reduce_op, hs, ho]
  constructor
  · intro hne
    rw [if_pos hne]
    exact ⟨rfl, rfl, rfl⟩
  · intro heq
    rw [if_neg (fun hn => hn heq)]
    exact ⟨rfl, rfl, rfl⟩

/-- Input of the C7 witness: an unsplit array of global shape (2, 3). -/
def c7x : DNDarray := ⟨⟨[2, 3], .float32⟩, [2, 3], .float32, none, none, ⟨0, 1⟩⟩

/-- A mismatched output buffer for the C7 witness (shape (9,) instead of (3,)). -/
def c7bad : DNDarray := ⟨⟨[9], .int32⟩, [9], .int32, none, none, ⟨0, 1⟩⟩

/-- A matching output buffer for the C7 witness (global shape (3,)). -/
def c7good : DNDarray := ⟨⟨[7], .int32⟩, [3], .int32, none, none, ⟨0, 1⟩⟩

/-- C7 witness: at concrete inputs, the mismatched `out` raises `ValueError` leaving
`out` unmodified, and the matching `out` is overwritten in place and returned. -/
theorem c7_witness :
    ((reduce_op sumFull sumKeep .sum c7x (.int 0) false (some c7bad)).res
        = .error .valueError ∧
     (reduce_op sumFull sumKeep .sum c7x (.int 0) false (some c7bad)).outState
        = some c7bad ∧
     (reduce_op sumFull sumKeep .sum c7x (.int 0) false (some c7bad)).events = []) ∧
    (reduce_op sumFull sumKeep .sum c7x (.int 0) false (some c7good)).res
        = .ok (updatedOut sumFull sumKeep .sum c7x (some [0]) c7good) :=
  ⟨(c7_confirmed sumFull sumKeep .sum c7x (.int 0) false c7bad (some [0]) [3]
      (by decide) (by decide)).1 (by decide),
   ((c7_confirmed sumFull sumKeep .sum c7x (.int 0) false c7good (some [0]) [3]
      (by decide) (by decide)).2 (by decide)).1⟩

/-- C1 amended-theorem witness: at the concrete unsplit/split operand pair the
incompatible-layout failure is raised, with the condition discharged by evaluation. -/
theorem c1_amended_witness :
    (binary_op opFst (.arr c1a) (.arr c1b) ⟨0, 2⟩).res = .error .notImplementedError :=
  (c1_amended opFst c1a c1b ⟨0, 2⟩).mpr (by decide)
